import Mathlib

/-!
Verification development for the two-player word-guessing client
(Input Validator, Remote Game Gateway, Subscription Bridge, Game State
Reconciler).  Every definition below is a shallow embedding of a function
of the JavaScript sources; JS strings handled character-by-character are
modelled as lists of Unicode code points (`List Nat`), identifiers that
are only compared for equality are modelled as Lean `String`s, machine
numbers as `Int`/`Nat`, nullable fields as `Option`, thrown errors as
`Except`.
-/

/-! ### Configuration constants (src/config/constants.js) -/

def GAME_CONFIG.MIN_WORD_LENGTH : Nat := 5

def GAME_CONFIG.MAX_WORD_LENGTH : Nat := 8

def NETWORK_CONFIG.MAX_RETRIES : Nat := 3

def NETWORK_CONFIG.RETRY_DELAY : Nat := 1000

/-! ### JS string primitives

JS strings are modelled as lists of code points.  `jsIsWsCp` is the set of
code points removed by `String.prototype.trim` (ECMA WhiteSpace and line
terminators); `jsUpperCp` is `String.prototype.toUpperCase` restricted to
ASCII letters and the Cyrillic letters the validator can accept (identity
on every other code point, which is faithful on all inputs the regex
`/^[а-яё]+$/i` lets through). -/

def jsIsWsCp (n : Nat) : Bool :=
  decide (n = 0x9 ∨ n = 0xA ∨ n = 0xB ∨ n = 0xC ∨ n = 0xD ∨ n = 0x20 ∨
    n = 0xA0 ∨ n = 0x1680 ∨ (0x2000 ≤ n ∧ n ≤ 0x200A) ∨ n = 0x2028 ∨
    n = 0x2029 ∨ n = 0x202F ∨ n = 0x205F ∨ n = 0x3000 ∨ n = 0xFEFF)

/-- Model of `word.trim()` on a list of code points. -/
def jsTrim (l : List Nat) : List Nat :=
  ((l.dropWhile jsIsWsCp).reverse.dropWhile jsIsWsCp).reverse

/-- Code points matched by the class `[а-яё]` under the `/i` flag:
both Cyrillic cases а..я / А..Я (the contiguous block U+0410..U+044F)
plus ё (U+0451) and Ё (U+0401). -/
def isCyrCI (n : Nat) : Bool :=
  decide ((0x410 ≤ n ∧ n ≤ 0x44F) ∨ n = 0x401 ∨ n = 0x451)

/-- Model of `VALIDATION_CONFIG.REGEX.WORD.test`, i.e. `/^[а-яё]+$/i`. -/
def regexWordTest (l : List Nat) : Bool :=
  !l.isEmpty && l.all isCyrCI

/-- The uppercase Cyrillic letters А..Я (U+0410..U+042F) and Ё (U+0401);
exactly the code points `jsUpperCp` produces from an accepted word. -/
def isUpperCyr (n : Nat) : Bool :=
  decide ((0x410 ≤ n ∧ n ≤ 0x42F) ∨ n = 0x401)

/-- Model of `toUpperCase` on one code point (see the note above). -/
def jsUpperCp (n : Nat) : Nat :=
  if 0x61 ≤ n ∧ n ≤ 0x7A then n - 0x20
  else if 0x430 ≤ n ∧ n ≤ 0x44F then n - 0x20
  else if n = 0x451 then 0x401
  else n

/-- Code points of a Lean string literal, for concrete test inputs. -/
def toCp (s : String) : List Nat := s.data.map Char.toNat

/-! ### Input Validator (src/utils/validation.js) -/

/-- Result record `\x7bvalid, error?\x7d` returned by `validateWordLength`. -/
structure WLResult where
  valid : Bool
  errMsg : Option String
deriving DecidableEq, Repr

/-- Embedding of `validateWordLength(length)`.  The JS guard
`typeof length !== 'number' || !Number.isInteger(length)` is satisfied by
construction because the argument is typed `Int`. -/
def validateWordLength (length : Int) : WLResult :=
  if length < (GAME_CONFIG.MIN_WORD_LENGTH : Int) ∨
      (GAME_CONFIG.MAX_WORD_LENGTH : Int) < length then
    ⟨false, some "length must be between 5 and 8"⟩
  else ⟨true, none⟩

/-- Result record `\x7bvalid, normalized?, error?\x7d` of `validateGuessInput`. -/
structure GuessValidation where
  valid : Bool
  normalized : Option (List Nat)
  errMsg : Option String
deriving DecidableEq, Repr

/-- Embedding of `validateGuessInput(word)`: reject the empty string
(`!word`), trim, check trimmed length against [5,8], test the Cyrillic
regex, and on success return the trimmed upper-cased form. -/
def validateGuessInput (word : List Nat) : GuessValidation :=
  if word.isEmpty then ⟨false, none, some "empty"⟩
  else if (jsTrim word).length < GAME_CONFIG.MIN_WORD_LENGTH ∨
      GAME_CONFIG.MAX_WORD_LENGTH < (jsTrim word).length then
    ⟨false, none, some "length"⟩
  else if !regexWordTest (jsTrim word) then ⟨false, none, some "letters"⟩
  else ⟨true, some ((jsTrim word).map jsUpperCp), none⟩

/-- Per-position check of the UUID regex
`/^[0-9a-f]\x7b8\x7d-[0-9a-f]\x7b4\x7d-[1-5][0-9a-f]\x7b3\x7d-[89ab][0-9a-f]\x7b3\x7d-[0-9a-f]\x7b12\x7d$/i`:
hyphens at 8/13/18/23, version digit 1-5 at 14, variant 8/9/a/b at 19,
case-insensitive hex elsewhere. -/
def uuidCharOk (i : Nat) (c : Char) : Bool :=
  if i = 8 ∨ i = 13 ∨ i = 18 ∨ i = 23 then c = '-'
  else if i = 14 then decide ('1' ≤ c ∧ c ≤ '5')
  else if i = 19 then
    decide (c = '8' ∨ c = '9' ∨ c = 'a' ∨ c = 'b' ∨ c = 'A' ∨ c = 'B')
  else decide (('0' ≤ c ∧ c ≤ '9') ∨ ('a' ≤ c ∧ c ≤ 'f') ∨ ('A' ≤ c ∧ c ≤ 'F'))

/-- Embedding of `validateUUID(uuid)`. -/
def validateUUID (uuid : String) : Bool :=
  if uuid = "" then false
  else
    uuid.data.length = 36 &&
      (List.range 36).all (fun i => uuidCharOk i (uuid.data.getD i ' '))

/-- Concrete guess input for tests: mixed case with surrounding blanks. -/
def sampleGuessRaw : List Nat := toCp "  ПрИвет "

/-- Its normalized form. -/
def sampleGuessNorm : List Nat := toCp "ПРИВЕТ"

/-! ### Error handling (src/utils/errorHandler.js)

A raw JS failure is either an already-typed `GameError` instance or a raw
error object carrying an optional `code` and an optional `message`
(`none` models an absent or `undefined` field). -/

inductive JsError where
  | gameErr (code : String) (message : String)
  | raw (code : Option String) (message : Option String)
deriving DecidableEq, Repr

/-- Typed error produced by `handleError`. -/
structure GameError where
  code : String
  message : String
deriving DecidableEq, Repr

/-- True when `pat` occurs in `hay` — model of `String.prototype.includes`
via an explicit structural scan. -/
def isPrefixChars : List Char → List Char → Bool
  | [], _ => true
  | _ :: _, [] => false
  | p :: ps, h :: hs => p = h && isPrefixChars ps hs

def hasSubChars : List Char → List Char → Bool
  | [], pat => pat.isEmpty
  | h :: hs, pat => isPrefixChars pat (h :: hs) || hasSubChars hs pat

def strHas (hay pat : String) : Bool := hasSubChars hay.data pat.data

def strHasOpt (hay : Option String) (pat : String) : Bool :=
  match hay with
  | some s => strHas s pat
  | none => false

/-- The `ERROR_MESSAGES` table, in JS object insertion order (the order
`Object.entries` iterates it in `handleError`). -/
def ERROR_MESSAGES : List (String × String) :=
  [("INVALID_INPUT", "bad input"),
   ("NOT_YOUR_TURN", "not your turn"),
   ("CELL_ALREADY_REVEALED", "cell already revealed"),
   ("ROOM_NOT_FOUND", "room not found"),
   ("ROOM_FULL", "room already has two players"),
   ("ROOM_ALREADY_ACTIVE", "game already started"),
   ("NOT_A_PLAYER", "not a player of this game"),
   ("CANNOT_JOIN_OWN_GAME", "cannot join own game"),
   ("INVALID_COORDINATES", "bad cell coordinates"),
   ("GAME_NOT_FOUND_OR_INACTIVE", "game not found or inactive"),
   ("DATABASE_ERROR", "database error"),
   ("AUTHENTICATION_FAILED", "authentication failed"),
   ("INTERNAL_ERROR", "internal server error"),
   ("UNKNOWN_ERROR", "unknown error"),
   ("NETWORK_ERROR", "network error"),
   ("TIMEOUT_ERROR", "timed out")]

def errMessageFor (code : String) : String :=
  match ERROR_MESSAGES.find? (fun p => p.1 = code) with
  | some p => p.2
  | none => ""

/-- Embedding of `handleError(error)`: a `GameError` passes through;
otherwise classify by Supabase code, then by message substrings, then by
scanning the `ERROR_MESSAGES` codes in insertion order, else `UNKNOWN_ERROR`.
An absent or empty message (falsy `error.message`) skips the code scan. -/
def handleError : JsError → GameError
  | .gameErr c m => ⟨c, m⟩
  | .raw code msg =>
    if code = some "PGRST116" then ⟨"NOT_FOUND", errMessageFor "ROOM_NOT_FOUND"⟩
    else if strHasOpt msg "JWT" || strHasOpt msg "auth" then
      ⟨"AUTH_ERROR", errMessageFor "AUTHENTICATION_FAILED"⟩
    else if strHasOpt msg "network" || strHasOpt msg "Failed to fetch" then
      ⟨"NETWORK_ERROR", errMessageFor "NETWORK_ERROR"⟩
    else if strHasOpt msg "timeout" then
      ⟨"TIMEOUT_ERROR", errMessageFor "TIMEOUT_ERROR"⟩
    else
      match msg with
      | some m =>
        if m = "" then ⟨"UNKNOWN_ERROR", errMessageFor "UNKNOWN_ERROR"⟩
        else
          match ERROR_MESSAGES.find? (fun p => strHas m p.1) with
          | some p => ⟨p.1, p.2⟩
          | none => ⟨"UNKNOWN_ERROR", errMessageFor "UNKNOWN_ERROR"⟩
      | none => ⟨"UNKNOWN_ERROR", errMessageFor "UNKNOWN_ERROR"⟩

/-- The transience test used inside `retryOperation`:
`gameError.code === 'NETWORK_ERROR' || gameError.code === 'TIMEOUT_ERROR'`. -/
def isTransientErr (e : JsError) : Bool :=
  (handleError e).code = "NETWORK_ERROR" || (handleError e).code = "TIMEOUT_ERROR"

/-! ### retryOperation (src/utils/errorHandler.js)

The asynchronous operation is modelled as a map from the attempt number
(1-based, as in the JS `for` loop) to that attempt's outcome.  The run is
recorded as the delivered result (`none` models the `undefined` a
zero-iteration loop would return), the number of attempts actually made,
and the list of backoff delays awaited between attempts. -/

structure RetryResult (α : Type) where
  result : Option (Except JsError α)
  attempts : Nat
  waits : List Nat
deriving Repr

def retryAux (op : Nat → Except JsError α) (maxRetries delay : Nat) :
    Nat → Nat → RetryResult α
  | _, 0 => ⟨none, 0, []⟩
  | attempt, fuel + 1 =>
    match op attempt with
    | .ok a => ⟨some (.ok a), 1, []⟩
    | .error e =>
      if attempt = maxRetries then ⟨some (.error e), 1, []⟩
      else if isTransientErr e then
        let rest := retryAux op maxRetries delay (attempt + 1) fuel
        ⟨rest.result, rest.attempts + 1, delay * attempt :: rest.waits⟩
      else ⟨some (.error e), 1, []⟩

/-- Embedding of `retryOperation(operation, maxRetries = 3, delay = 1000)`. -/
def retryOperation (op : Nat → Except JsError α) (maxRetries delay : Nat) :
    RetryResult α :=
  retryAux op maxRetries delay 1 maxRetries

/-! ### Remote Game Gateway (src/services/gameService.js)

Each gateway operation takes the remote procedure as an explicit argument
(attempt number → outcome) and returns, along with the JS return value or
thrown `GameError`, the number of remote calls it actually issued. -/

structure RpcCreateData where
  room_id : String
  word_length : Int
deriving DecidableEq, Repr

structure CreateGameOk where
  roomId : String
  wordLength : Int
deriving DecidableEq, Repr

/-- Embedding of `createGame(wordLength)`: validate first (no remote call
on invalid input), then run the RPC under `retryOperation`, normalizing a
failure through `handleError`.  The unreachable `none` case (a
zero-iteration retry loop) is reported as the `TypeError` reading
`result.room_id` of `undefined` would produce, normalized the same way. -/
def createGame (wordLength : Int)
    (remote : Nat → Except JsError RpcCreateData) :
    Except GameError CreateGameOk × Nat :=
  if (validateWordLength wordLength).valid = false then
    (.error ⟨"INVALID_INPUT", ((validateWordLength wordLength).errMsg).getD ""⟩, 0)
  else
    let r := retryOperation remote NETWORK_CONFIG.MAX_RETRIES NETWORK_CONFIG.RETRY_DELAY
    match r.result with
    | some (.ok d) => (.ok ⟨d.room_id, d.word_length⟩, r.attempts)
    | some (.error e) => (.error (handleError e), r.attempts)
    | none => (.error (handleError (.raw none (some "TypeError"))), r.attempts)

structure RpcJoinData where
  success : Bool
  first_player : Option Int
  errCode : Option String
deriving DecidableEq, Repr

structure JoinGameOk where
  success : Bool
  firstPlayer : Option Int
deriving DecidableEq, Repr

/-- Embedding of `joinGame(roomId)`: UUID validation first, then the RPC
under `retryOperation`; a `success: false` payload is re-thrown as
`GameError(result.error, result.error)` and caught by the same
normalizer. -/
def joinGame (roomId : String)
    (remote : Nat → Except JsError RpcJoinData) :
    Except GameError JoinGameOk × Nat :=
  if validateUUID roomId = false then
    (.error ⟨"INVALID_INPUT", "bad room id"⟩, 0)
  else
    let r := retryOperation remote NETWORK_CONFIG.MAX_RETRIES NETWORK_CONFIG.RETRY_DELAY
    match r.result with
    | some (.ok d) =>
      if d.success = false then
        (.error (handleError (.gameErr (d.errCode.getD "") (d.errCode.getD ""))), r.attempts)
      else (.ok ⟨true, d.first_player⟩, r.attempts)
    | some (.error e) => (.error (handleError e), r.attempts)
    | none => (.error (handleError (.raw none (some "TypeError"))), r.attempts)

/-! ### Data model: room snapshots (game_rooms rows)

Nullable / possibly-absent columns are `Option`s.  The board payload is
never inspected by the Reconciler logic under verification, only stored
and forwarded, so cells keep the source shape from GameGrid. -/

structure CellData where
  row : Nat
  col : Nat
  letter : Option String
  revealed : Bool
deriving DecidableEq, Repr

abbrev Board := List (List CellData)

/-- The duck-typed `field_state` object of legacy snapshots: it may carry
a `grid` field; when it does not, the object itself is used as board
data. -/
structure FieldState where
  grid : Option Board
deriving DecidableEq, Repr

structure Snapshot where
  player1_id : Option String
  player2_id : Option String
  current_player : Option Int
  player1_score : Option Int
  player2_score : Option Int
  status : Option String
  winner : Option Int
  word : Option String
  board_state : Option Board
  field_state : Option FieldState
deriving DecidableEq, Repr

def emptySnapshot : Snapshot :=
  ⟨none, none, none, none, none, none, none, none, none, none⟩

/-- Where `handleGameUpdate` discovered its board data. -/
inductive BoardSource where
  | fromBoardState (b : Board)
  | fromFieldGrid (b : Board)
  | fromFieldObject (fs : FieldState)
deriving DecidableEq, Repr

/-- Embedding of the duck-typed board extraction
`gameState.board_state || gameState.field_state?.grid || gameState.field_state`. -/
def extractBoard (g : Snapshot) : Option BoardSource :=
  match g.board_state with
  | some b => some (.fromBoardState b)
  | none =>
    match g.field_state with
    | some fs =>
      match fs.grid with
      | some b => some (.fromFieldGrid b)
      | none => some (.fromFieldObject fs)
    | none => none

/-- JS truthiness of a nullable string field (`null`/`undefined` and the
empty string are falsy). -/
def jsTruthyStrOpt : Option String → Bool
  | none => false
  | some s => decide (s ≠ "")

/-- JS truthiness of a nullable number field (`null`/`undefined` and `0`
are falsy). -/
def jsTruthyIntOpt : Option Int → Bool
  | none => false
  | some i => decide (i ≠ 0)

/-- Embedding of `getGameState(roomId)` (gameService): UUID validation,
then a single `.single()` fetch — note: no `retryOperation` around it.
The remote outcome is `ok none` when the row is missing (`!data`). -/
def getGameState (roomId : String)
    (remote : Except JsError (Option Snapshot)) :
    Except GameError Snapshot × Nat :=
  if validateUUID roomId = false then
    (.error ⟨"INVALID_INPUT", "bad room id"⟩, 0)
  else
    match remote with
    | .error e => (.error (handleError e), 1)
    | .ok none => (.error (handleError (.gameErr "ROOM_NOT_FOUND" "not found")), 1)
    | .ok (some d) => (.ok d, 1)

/-! ### TurnIndicator (src/components/TurnIndicator.js) -/

structure TIState where
  currentPlayer : Option Int
  currentUserId : Option String
  player1Id : Option String
  player2Id : Option String
  player1Score : Int
  player2Score : Int
  gameStatus : Option String
deriving DecidableEq, Repr

/-- Constructor state of TurnIndicator. -/
def tiInit : TIState := ⟨none, none, none, none, 0, 0, some "waiting"⟩

/-- Embedding of `TurnIndicator.updateGameState(gameState)`
(`player1_score || 0` maps a falsy score to 0). -/
def updateGameState (ti : TIState) (g : Snapshot) : TIState :=
  { ti with
    currentPlayer := g.current_player
    player1Id := g.player1_id
    player2Id := g.player2_id
    player1Score := g.player1_score.getD 0
    player2Score := g.player2_score.getD 0
    gameStatus := g.status }

/-- Embedding of `TurnIndicator.setCurrentUser(userId)`. -/
def setCurrentUser (ti : TIState) (u : String) : TIState :=
  { ti with currentUserId := some u }

/-- Embedding of `TurnIndicator.isCurrentUserTurn()`: false when either
the user id or the current player number is falsy; otherwise the current
player number is matched against the identity of that player's slot. -/
def isCurrentUserTurn (ti : TIState) : Bool :=
  if jsTruthyStrOpt ti.currentUserId = false ∨
      jsTruthyIntOpt ti.currentPlayer = false then false
  else if ti.currentPlayer = some 1 ∧ ti.currentUserId = ti.player1Id then true
  else if ti.currentPlayer = some 2 ∧ ti.currentUserId = ti.player2Id then true
  else false

/-! ### Reconciler state (src/App.js, class App) -/

/-- Result record shown by GameOverScreen. -/
structure GameOverResult where
  winner : Option Int
  word : Option String
  player1Score : Option Int
  player2Score : Option Int
  currentUserId : String
  player1Id : Option String
  player2Id : Option String
deriving DecidableEq, Repr

/-- Observable state of the presentation components the Reconciler
drives. -/
structure ComponentsState where
  gridBoard : Option BoardSource
  gridInteractive : Bool
  tiState : TIState
  inputEnabled : Bool
  inputFocused : Bool
  gameOverVisible : Bool
  gameOverResult : Option GameOverResult
deriving DecidableEq, Repr

/-- The App state (`this.state`) plus instrumentation counters recording
observable effects: `joinNotifCount` counts "opponent joined"
notifications shown, `boardErrorLogCount` counts the `logger.error`
emitted for a snapshot with no discoverable board field. -/
structure AppState where
  currentUser : String
  roomId : Option String
  gameState : Option Snapshot
  previousGameState : Option Snapshot
  isCreatingGame : Bool
  isFirstPlayer : Bool
  playerJoinedNotificationShown : Bool
  waitingIndicatorShown : Bool
  joinNotifCount : Nat
  boardErrorLogCount : Nat
  comps : ComponentsState
deriving DecidableEq, Repr

/-- Embedding of `App.handleGameUpdate(gameState)`: save the previous
snapshot, overwrite the current one, then look for board data; when none
is discoverable, log and return without touching any component;
otherwise update the grid, the turn indicator, and the interactivity
flags (`isMyTurn && isActive`). -/
def appHandleGameUpdate (s : AppState) (g : Snapshot) : AppState :=
  let s1 : AppState := { s with previousGameState := s.gameState, gameState := some g }
  match extractBoard g with
  | none => { s1 with boardErrorLogCount := s1.boardErrorLogCount + 1 }
  | some bd =>
    let s2 : AppState :=
      if g.status = some "active" then { s1 with waitingIndicatorShown := false } else s1
    let ti := updateGameState (setCurrentUser s2.comps.tiState s2.currentUser) g
    let myTurn := isCurrentUserTurn ti
    let active : Bool := decide (g.status = some "active")
    { s2 with
      comps := { s2.comps with
        gridBoard := some bd
        gridInteractive := myTurn && active
        tiState := ti
        inputEnabled := myTurn && active
        inputFocused := if (myTurn && active) = true then true else s2.comps.inputFocused } }

/-- Embedding of the `onPlayerJoined` callback registered by
`App.subscribeToRoom`: the one-shot notification fires only when it has
not been shown, this client is the first player, and the new record has
a (truthy) second-player id; then the update is applied as usual. -/
def appOnPlayerJoined (s : AppState) (n : Snapshot) : AppState :=
  let s1 : AppState :=
    if s.playerJoinedNotificationShown = false ∧ s.isFirstPlayer = true ∧
        jsTruthyStrOpt n.player2_id = true then
      { s with
        waitingIndicatorShown := false
        joinNotifCount := s.joinNotifCount + 1
        playerJoinedNotificationShown := true }
    else s
  appHandleGameUpdate s1 n

/-- Embedding of `App.handleGameFinished(gameState)` (the `onGameFinished`
callback): show the game-over screen with the final results. -/
def appOnGameFinished (s : AppState) (g : Snapshot) : AppState :=
  { s with
    comps := { s.comps with
      gameOverVisible := true
      gameOverResult := some
        ⟨g.winner, g.word, g.player1_score, g.player2_score,
         s.currentUser, g.player1_id, g.player2_id⟩ } }

/-! ### Subscription Bridge (src/services/realtimeService.js)

A raw change notification.  Supabase delivers `new` and `old` as objects
(possibly `\x7b\x7d`), so both records are total here, with `emptySnapshot`
standing for an empty object; the JS guard
`eventType === 'UPDATE' && newRecord` therefore reduces to the event-type
test (objects are always truthy). -/

inductive EventType where
  | INSERT
  | UPDATE
  | DELETE
deriving DecidableEq, Repr

structure Payload where
  eventType : EventType
  newRec : Snapshot
  oldRec : Snapshot
deriving DecidableEq, Repr

/-- Callback invocations of `RealtimeManager.handleGameUpdate`, in the
order the method makes them. -/
inductive CbEvt where
  | gameUpdate (n : Snapshot)
  | playerJoined (n : Snapshot)
  | cellRevealed (n : Snapshot)
  | gameFinished (n : Snapshot)
  | roomDeleted
deriving DecidableEq, Repr

/-- Embedding of `RealtimeManager.handleGameUpdate(roomId, payload,
callbacks)`: the generic `onGameUpdate` is invoked first, then, for
UPDATE payloads, `onPlayerJoined` / `onCellRevealed` / `onGameFinished`
in source order, each under its condition (`JSON.stringify` inequality of
`board_state` is structural inequality); a DELETE triggers the
auto-unsubscribe. -/
def bridgeCallbacks (p : Payload) : List CbEvt :=
  CbEvt.gameUpdate p.newRec ::
    ((if p.eventType = EventType.UPDATE then
        (if jsTruthyStrOpt p.oldRec.player2_id = false ∧
            jsTruthyStrOpt p.newRec.player2_id = true then
          [CbEvt.playerJoined p.newRec]
        else []) ++
        (if p.oldRec.board_state ≠ p.newRec.board_state then
          [CbEvt.cellRevealed p.newRec]
        else []) ++
        (if p.oldRec.status = some "active" ∧ p.newRec.status = some "finished" then
          [CbEvt.gameFinished p.newRec]
        else [])
      else []) ++
      (if p.eventType = EventType.DELETE then [CbEvt.roomDeleted] else []))

/-- Dispatch of one bridge callback to the App handlers registered by
`App.subscribeToRoom` (`onGameUpdate`/`onCellRevealed` both run
`handleGameUpdate`; the DELETE auto-unsubscribe acts on the realtime
manager, modelled separately, not on the App state). -/
def appStep (s : AppState) : CbEvt → AppState
  | .gameUpdate n => appHandleGameUpdate s n
  | .playerJoined n => appOnPlayerJoined s n
  | .cellRevealed n => appHandleGameUpdate s n
  | .gameFinished n => appOnGameFinished s n
  | .roomDeleted => s

/-- One raw update processed end to end: the bridge classifies it and the
App consumes the resulting callbacks in order. -/
def processPayload (s : AppState) (p : Payload) : AppState :=
  (bridgeCallbacks p).foldl appStep s

/-- Modelled from the spec: the emission order §4.3 claims — all
applicable specialized events first, in the order join → cell-reveal →
finish, followed by the generic update. -/
def specOrderedEmits (p : Payload) : List CbEvt :=
  (if jsTruthyStrOpt p.oldRec.player2_id = false ∧
      jsTruthyStrOpt p.newRec.player2_id = true then
    [CbEvt.playerJoined p.newRec]
  else []) ++
  (if p.oldRec.board_state ≠ p.newRec.board_state then
    [CbEvt.cellRevealed p.newRec]
  else []) ++
  (if p.oldRec.status = some "active" ∧ p.newRec.status = some "finished" then
    [CbEvt.gameFinished p.newRec]
  else []) ++
  [CbEvt.gameUpdate p.newRec]

/-! ### Create-game double-submission guard (App.handleCreateGame)

`handleCreateGame` is modelled as a transition system on the in-flight
flag: `invoke` is a user-triggered call (it returns immediately when the
flag is set, otherwise sets the flag, schedules the 2000 ms `setTimeout`
that clears it, and issues the create); `timeoutFire` is that timer
firing; `completeError` is the catch branch (clears the flag);
`completeSuccess` is the success path, which does not clear the flag. -/

structure CreateFlowState where
  isCreatingGame : Bool
  createsIssued : Nat
  pendingTimeouts : Nat
deriving DecidableEq, Repr

inductive CreateFlowEvt where
  | invoke
  | timeoutFire
  | completeError
  | completeSuccess
deriving DecidableEq, Repr

def createFlowStep (s : CreateFlowState) : CreateFlowEvt → CreateFlowState
  | .invoke =>
    if s.isCreatingGame = true then s
    else
      { s with
        isCreatingGame := true
        createsIssued := s.createsIssued + 1
        pendingTimeouts := s.pendingTimeouts + 1 }
  | .timeoutFire =>
    { s with isCreatingGame := false, pendingTimeouts := s.pendingTimeouts - 1 }
  | .completeError => { s with isCreatingGame := false }
  | .completeSuccess => s

def createFlowRun (s : CreateFlowState) (es : List CreateFlowEvt) : CreateFlowState :=
  es.foldl createFlowStep s

def createFlowInit : CreateFlowState := ⟨false, 0, 0⟩

/-! ### RealtimeManager subscription bookkeeping (src/services/realtimeService.js)

`subscribeToRoom` calls the async `unsubscribeFromRoom` WITHOUT awaiting
it.  Per JS event-loop semantics the unsubscribe body runs synchronously
up to `await supabase.removeChannel(channel)` (which starts tearing down
the old channel), and the remainder — `channels.delete(roomId)`,
`eventHandlers.delete(roomId)` — runs later as a scheduled continuation,
after `subscribeToRoom` has already stored the NEW channel in the maps.
The model makes that explicit: `mgrUnsubSync` is the synchronous part,
`mgrContRun` the continuation, `drainTask` the event-loop step running
it.  `live` lists the (room, channel) pairs whose supabase channel is
currently subscribed. -/

structure MgrState where
  channels : List (String × Nat)
  handlers : List (String × Nat)
  live : List (String × Nat)
  pendingConts : List String
  nextChan : Nat
deriving DecidableEq, Repr

def mapGet (m : List (String × Nat)) (k : String) : Option Nat :=
  match m.find? (fun p => p.1 = k) with
  | some p => some p.2
  | none => none

/-- `Map.set`: at most one entry per key. -/
def mapSet (m : List (String × Nat)) (k : String) (v : Nat) : List (String × Nat) :=
  m.filter (fun p => !(p.1 = k : Bool)) ++ [(k, v)]

def mapDelete (m : List (String × Nat)) (k : String) : List (String × Nat) :=
  m.filter (fun p => !(p.1 = k : Bool))

/-- Synchronous prefix of `unsubscribeFromRoom(roomId)`: look the channel
up; if absent just warn and return; otherwise start removing the channel
and leave the map cleanup to the pending continuation. -/
def mgrUnsubSync (s : MgrState) (r : String) : MgrState :=
  match mapGet s.channels r with
  | none => s
  | some c =>
    { s with
      live := s.live.filter (fun p => !(p.2 = c : Bool))
      pendingConts := s.pendingConts ++ [r] }

/-- The continuation after `await supabase.removeChannel(channel)`:
delete the room's entries from both maps. -/
def mgrContRun (s : MgrState) : MgrState :=
  match s.pendingConts with
  | [] => s
  | r :: rest =>
    { s with
      channels := mapDelete s.channels r
      handlers := mapDelete s.handlers r
      pendingConts := rest }

/-- Embedding of `subscribeToRoom(roomId, callbacks)`: fire-and-forget
unsubscribe when already subscribed, then create and store the new
channel and its handlers. -/
def mgrSubscribe (s : MgrState) (r : String) : MgrState :=
  let s1 := if (mapGet s.channels r).isSome then mgrUnsubSync s r else s
  { s1 with
    live := s1.live ++ [(r, s1.nextChan)]
    channels := mapSet s1.channels r s1.nextChan
    handlers := mapSet s1.handlers r s1.nextChan
    nextChan := s1.nextChan + 1 }

inductive MgrOp where
  | subscribe (r : String)
  | unsubscribe (r : String)
  | drainTask
deriving DecidableEq, Repr

def mgrStep (s : MgrState) : MgrOp → MgrState
  | .subscribe r => mgrSubscribe s r
  | .unsubscribe r => mgrUnsubSync s r
  | .drainTask => mgrContRun s

def mgrRun (s : MgrState) (ops : List MgrOp) : MgrState :=
  ops.foldl mgrStep s

def mgrInit : MgrState := ⟨[], [], [], [], 1⟩

/-! ### Concrete inputs for the witnesses -/

def boardA : Board := [[⟨0, 0, none, false⟩]]

/-- Room snapshot while waiting for the second player. -/
def snapWaiting : Snapshot :=
  { emptySnapshot with
    player1_id := some "u1"
    current_player := some 1
    status := some "waiting"
    board_state := some boardA }

/-- The same room after the second player joined. -/
def snapActive : Snapshot :=
  { snapWaiting with player2_id := some "u2", status := some "active" }

/-- A malformed snapshot: no board under any recognized key. -/
def snapNoBoard : Snapshot :=
  { emptySnapshot with player1_id := some "u1", status := some "active" }

/-- The raw UPDATE notification for the join transition. -/
def payloadJoin : Payload := ⟨EventType.UPDATE, snapActive, snapWaiting⟩

/-- Reconciler state of the first player right after creating the room. -/
def appState0 : AppState :=
  { currentUser := "u1"
    roomId := some "r1"
    gameState := some snapWaiting
    previousGameState := none
    isCreatingGame := false
    isFirstPlayer := true
    playerJoinedNotificationShown := false
    waitingIndicatorShown := true
    joinNotifCount := 0
    boardErrorLogCount := 0
    comps :=
      { gridBoard := some (.fromBoardState boardA)
        gridInteractive := false
        tiState := tiInit
        inputEnabled := false
        inputFocused := false
        gameOverVisible := false
        gameOverResult := none } }

/-- A syntactically valid room id (version 4, variant a). -/
def sampleRoomId : String := "123e4567-e89b-42d3-a456-426614174000"

/-! ### Lemmas about the validator character sets -/

lemma upperCyr_of_cyrCI (n : Nat) (h : isCyrCI n = true) :
    isUpperCyr (jsUpperCp n) = true := by
  simp only [isCyrCI, decide_eq_true_eq] at h
  unfold jsUpperCp
  split
  next h1 => simp only [isUpperCyr, decide_eq_true_eq]; omega
  next h1 =>
    split
    next h2 => simp only [isUpperCyr, decide_eq_true_eq]; omega
    next h2 =>
      split
      next h3 => decide
      next h3 => simp only [isUpperCyr, decide_eq_true_eq]; omega

lemma cyrCI_of_upperCyr (n : Nat) (h : isUpperCyr n = true) :
    isCyrCI n = true := by
  simp only [isUpperCyr, decide_eq_true_eq] at h
  simp only [isCyrCI, decide_eq_true_eq]
  omega

lemma jsUpperCp_fixed_of_upperCyr (n : Nat) (h : isUpperCyr n = true) :
    jsUpperCp n = n := by
  simp only [isUpperCyr, decide_eq_true_eq] at h
  unfold jsUpperCp
  split
  next h1 => omega
  next h1 =>
    split
    next h2 => omega
    next h2 =>
      split
      next h3 => omega
      next h3 => rfl

lemma not_ws_of_upperCyr (n : Nat) (h : isUpperCyr n = true) :
    jsIsWsCp n = false := by
  simp only [isUpperCyr, decide_eq_true_eq] at h
  simp only [jsIsWsCp, decide_eq_false_iff_not]
  omega

lemma dropWhile_eq_self_of_none (p : Nat → Bool) (l : List Nat)
    (h : ∀ c ∈ l, p c = false) : l.dropWhile p = l := by
  cases l with
  | nil => rfl
  | cons a t =>
    simp only [List.dropWhile_cons, h a (List.mem_cons_self a t),
      Bool.false_eq_true, if_false]

lemma jsTrim_eq_self_of_no_ws (l : List Nat)
    (h : ∀ c ∈ l, jsIsWsCp c = false) : jsTrim l = l := by
  unfold jsTrim
  rw [dropWhile_eq_self_of_none _ _ h]
  rw [dropWhile_eq_self_of_none _ _ (fun c hc => h c (List.mem_reverse.mp hc))]
  exact List.reverse_reverse l

lemma map_eq_self_of_fixed (f : Nat → Nat) (l : List Nat)
    (h : ∀ c ∈ l, f c = c) : l.map f = l := by
  induction l with
  | nil => rfl
  | cons a t ih =>
    rw [List.map_cons, h a (List.mem_cons_self a t),
      ih (fun c hc => h c (List.mem_cons_of_mem a hc))]

/-- C8. `validateGuessInput` is idempotent under its own normalization:
whenever it accepts a word `w` and returns the normalized form `n`,
running it again on `n` succeeds and returns the identical `n`. -/
theorem validateGuessInput_idem (w n : List Nat)
    (h : validateGuessInput w = ⟨true, some n, none⟩) :
    validateGuessInput n = ⟨true, some n, none⟩ := by
  unfold validateGuessInput at h
  split at h
  · exact absurd (congrArg GuessValidation.valid h) (by simp)
  next hne =>
    split at h
    · exact absurd (congrArg GuessValidation.valid h) (by simp)
    next hlen =>
      split at h
      · exact absurd (congrArg GuessValidation.valid h) (by simp)
      next hreg =>
        have hn : (jsTrim w).map jsUpperCp = n :=
          Option.some.inj (congrArg GuessValidation.normalized h)
        have hregt : regexWordTest (jsTrim w) = true := by
          revert hreg; cases regexWordTest (jsTrim w) <;> simp
        have hallCI : ∀ c ∈ jsTrim w, isCyrCI c = true := by
          have := (Bool.and_eq_true _ _).mp hregt
          exact fun c hc => (List.all_eq_true.mp this.2) c hc
        have hallU : ∀ c ∈ n, isUpperCyr c = true := by
          intro c hc
          rw [← hn] at hc
          rcases List.mem_map.mp hc with ⟨d, hd, rfl⟩
          exact upperCyr_of_cyrCI d (hallCI d hd)
        have hlenn : n.length = (jsTrim w).length := by
          rw [← hn, List.length_map]
        have htrimn : jsTrim n = n :=
          jsTrim_eq_self_of_no_ws n
            (fun c hc => not_ws_of_upperCyr c (hallU c hc))
        have hlb : GAME_CONFIG.MIN_WORD_LENGTH ≤ (jsTrim w).length ∧
            (jsTrim w).length ≤ GAME_CONFIG.MAX_WORD_LENGTH := by
          constructor <;> omega
        have hnnil : n ≠ [] := by
          intro hnil
          rw [hnil] at hlenn
          simp only [List.length_nil] at hlenn
          have := hlb.1
          rw [← hlenn] at this
          simp [GAME_CONFIG.MIN_WORD_LENGTH] at this
        have hnempty : n.isEmpty = false := by
          cases n with
          | nil => exact absurd rfl hnnil
          | cons a t => rfl
        have hregn : regexWordTest n = true := by
          unfold regexWordTest
          rw [hnempty]
          simp only [Bool.not_false, Bool.true_and, List.all_eq_true]
          exact fun c hc => cyrCI_of_upperCyr c (hallU c hc)
        have hmapn : n.map jsUpperCp = n :=
          map_eq_self_of_fixed jsUpperCp n
            (fun c hc => jsUpperCp_fixed_of_upperCyr c (hallU c hc))
        unfold validateGuessInput
        rw [if_neg (by rw [hnempty]; exact Bool.false_ne_true)]
        rw [htrimn]
        rw [if_neg (by omega)]
        rw [if_neg (by rw [hregn]; exact (by simp))]
        rw [hmapn]

/-- Witness for C8 at a concrete mixed-case input with blanks. -/
theorem validateGuessInput_idem_witness :
    validateGuessInput sampleGuessRaw = ⟨true, some sampleGuessNorm, none⟩ ∧
    validateGuessInput sampleGuessNorm = ⟨true, some sampleGuessNorm, none⟩ :=
  ⟨by decide, validateGuessInput_idem sampleGuessRaw sampleGuessNorm (by decide)⟩

/-- C7. `validateWordLength` accepts exactly the integers in [5,8], and
`createGame` with an invalid word length fails with `INVALID_INPUT`
before issuing any remote call. -/
theorem validateWordLength_range (n : Int) :
    ((validateWordLength n).valid = true ↔ 5 ≤ n ∧ n ≤ 8) ∧
    (∀ remote : Nat → Except JsError RpcCreateData,
      (validateWordLength n).valid = false →
      createGame n remote =
        (.error ⟨"INVALID_INPUT", "length must be between 5 and 8"⟩, 0)) := by
  have hmsg : (validateWordLength n).valid = false →
      validateWordLength n = ⟨false, some "length must be between 5 and 8"⟩ := by
    unfold validateWordLength
    split
    · intro _; rfl
    · intro h; exact absurd h (by simp)
  constructor
  · unfold validateWordLength
    split
    next h =>
      simp only [GAME_CONFIG.MIN_WORD_LENGTH, GAME_CONFIG.MAX_WORD_LENGTH] at h
      simp only [Bool.false_eq_true, false_iff]
      omega
    next h =>
      simp only [GAME_CONFIG.MIN_WORD_LENGTH, GAME_CONFIG.MAX_WORD_LENGTH] at h
      simp only [true_iff]
      omega
  · intro remote h
    unfold createGame
    rw [if_pos h, hmsg h]
    rfl

/-- Witness for C7: 9 is rejected with no remote call, 6 is accepted. -/
theorem validateWordLength_range_witness :
    ((validateWordLength 9).valid = false) ∧
    (createGame 9 (fun _ => .ok ⟨"room", 9⟩) =
      (.error ⟨"INVALID_INPUT", "length must be between 5 and 8"⟩, 0)) ∧
    ((validateWordLength 6).valid = true) :=
  ⟨by decide, (validateWordLength_range 9).2 (fun _ => .ok ⟨"room", 9⟩) (by decide),
    by decide⟩

/-- C3 (amended). The shared `retryOperation` mechanism — used by
`createGame`, `joinGame`, `revealCell` and `validateGuess` — retries a
transient-classified failure up to the 3-attempt ceiling with backoff
`delay × attemptNumber` (1000 ms then 2000 ms) and then surfaces the last
error, while a non-transient failure is surfaced on the first occurrence
with no retry; `getGameState`, however, performs no retry at all (see the
counterexample). -/
theorem retryOperation_policy (α : Type) (opA opB : Nat → Except JsError α)
    (e1 e2 e3 f : JsError)
    (h1 : opA 1 = .error e1) (t1 : isTransientErr e1 = true)
    (h2 : opA 2 = .error e2) (t2 : isTransientErr e2 = true)
    (h3 : opA 3 = .error e3)
    (g1 : opB 1 = .error f) (gf : isTransientErr f = false) :
    retryOperation opA 3 1000 = ⟨some (.error e3), 3, [1000, 2000]⟩ ∧
    retryOperation opB 3 1000 = ⟨some (.error f), 1, []⟩ := by
  constructor
  · simp [retryOperation, retryAux, h1, h2, h3, t1, t2]
  · simp [retryOperation, retryAux, g1, gf]

/-- Witness for C3's amended theorem: a network error on every attempt is
retried twice then surfaced; a room-full domain rejection is surfaced at
once. -/
theorem retryOperation_policy_witness :
    retryOperation (α := Unit)
        (fun _ => .error (.raw none (some "network is down"))) 3 1000 =
      ⟨some (.error (.raw none (some "network is down"))), 3, [1000, 2000]⟩ ∧
    retryOperation (α := Unit)
        (fun _ => .error (.raw none (some "ROOM_FULL"))) 3 1000 =
      ⟨some (.error (.raw none (some "ROOM_FULL"))), 1, []⟩ :=
  retryOperation_policy Unit
    (fun _ => .error (.raw none (some "network is down")))
    (fun _ => .error (.raw none (some "ROOM_FULL")))
    (.raw none (some "network is down")) (.raw none (some "network is down"))
    (.raw none (some "network is down")) (.raw none (some "ROOM_FULL"))
    rfl (by decide) rfl (by decide) rfl rfl (by decide)

/-- C3 counterexample to the claim as stated: `getGameState` is a gateway
operation, yet a transient (network-classified) failure on it is NOT
retried up to the 3-attempt ceiling — exactly one remote call is made and
the error is surfaced immediately. -/
theorem getGameState_no_retry :
    getGameState sampleRoomId (.error (.raw none (some "network is down"))) =
      (.error ⟨"NETWORK_ERROR", "network error"⟩, 1) ∧
    isTransientErr (.raw none (some "network is down")) = true := by
  constructor
  · rfl
  · decide

lemma isCurrentUserTurn_iff (ti : TIState) (u : String)
    (hcu : ti.currentUserId = some u) (hu : u ≠ "") :
    (isCurrentUserTurn ti = true ↔
      (ti.currentPlayer = some 1 ∧ ti.player1Id = some u) ∨
      (ti.currentPlayer = some 2 ∧ ti.player2Id = some u)) := by
  have hs : jsTruthyStrOpt (some u) = true := by simp [jsTruthyStrOpt, hu]
  unfold isCurrentUserTurn
  rw [hcu]
  split
  next h =>
    rcases h with h | h
    · rw [hs] at h
      exact absurd h (by simp)
    · constructor
      · intro hfalse
        exact absurd hfalse (by simp)
      · intro hor
        rcases hor with ⟨h1, _⟩ | ⟨h1, _⟩ <;> rw [h1] at h <;>
          simp [jsTruthyIntOpt] at h
  next h =>
    split
    next h2 =>
      simp only [true_iff]
      exact Or.inl ⟨h2.1, h2.2.symm⟩
    next h2 =>
      split
      next h3 =>
        simp only [true_iff]
        exact Or.inr ⟨h3.1, h3.2.symm⟩
      next h3 =>
        simp only [Bool.false_eq_true, false_iff]
        intro hor
        rcases hor with ⟨hp, hid⟩ | ⟨hp, hid⟩
        · exact h2 ⟨hp, hid.symm⟩
        · exact h3 ⟨hp, hid.symm⟩

/-- C4. For every snapshot the Reconciler applies (a board is
discoverable, and the local session has a real identity), `isMyTurn`
holds exactly when the snapshot's current-turn player number names the
slot whose stored identity equals the local user's — identity comparison,
not position or arrival order — and the board is interactive and the
guess input enabled exactly when `isMyTurn && status == 'active'`. -/
theorem isMyTurn_by_identity (s : AppState) (g : Snapshot)
    (hb : (extractBoard g).isSome = true) (hu : s.currentUser ≠ "") :
    ((appHandleGameUpdate s g).comps.tiState =
        updateGameState (setCurrentUser s.comps.tiState s.currentUser) g) ∧
    (isCurrentUserTurn
        (updateGameState (setCurrentUser s.comps.tiState s.currentUser) g) = true ↔
      (g.current_player = some 1 ∧ g.player1_id = some s.currentUser) ∨
      (g.current_player = some 2 ∧ g.player2_id = some s.currentUser)) ∧
    ((appHandleGameUpdate s g).comps.gridInteractive =
      (isCurrentUserTurn
          (updateGameState (setCurrentUser s.comps.tiState s.currentUser) g) &&
        decide (g.status = some "active"))) ∧
    ((appHandleGameUpdate s g).comps.inputEnabled =
      (isCurrentUserTurn
          (updateGameState (setCurrentUser s.comps.tiState s.currentUser) g) &&
        decide (g.status = some "active"))) := by
  cases hbs : extractBoard g with
  | none => rw [hbs] at hb; exact absurd hb (by simp)
  | some bd =>
    have hti : (updateGameState (setCurrentUser s.comps.tiState s.currentUser)
        g).currentUserId = some s.currentUser := rfl
    refine ⟨?_, ?_, ?_, ?_⟩
    · simp only [appHandleGameUpdate, hbs]
      split <;> rfl
    · exact isCurrentUserTurn_iff _ s.currentUser hti hu
    · simp only [appHandleGameUpdate, hbs]
      split <;> rfl
    · simp only [appHandleGameUpdate, hbs]
      split <;> rfl

/-- Witness for C4 at a concrete active snapshot where the local user is
the first player and it is their turn. -/
theorem isMyTurn_by_identity_witness :
    (isCurrentUserTurn
        (updateGameState (setCurrentUser appState0.comps.tiState
          appState0.currentUser) snapActive) = true ↔
      (snapActive.current_player = some 1 ∧
        snapActive.player1_id = some appState0.currentUser) ∨
      (snapActive.current_player = some 2 ∧
        snapActive.player2_id = some appState0.currentUser)) ∧
    (appHandleGameUpdate appState0 snapActive).comps.gridInteractive = true :=
  ⟨(isMyTurn_by_identity appState0 snapActive (by decide) (by decide)).2.1,
   by decide⟩

/-- C5. A malformed snapshot — no board data under `board_state`,
`field_state.grid` or `field_state` — is logged as an anomaly and causes
no presentation update at all: every component keeps its previous state
(the embedding is total, so no crash is possible).  The third conjunct
characterizes malformedness in terms of the recognized keys. -/
theorem malformedSnapshot_degrade (s : AppState) (g : Snapshot)
    (h : extractBoard g = none) :
    (appHandleGameUpdate s g).boardErrorLogCount = s.boardErrorLogCount + 1 ∧
    (appHandleGameUpdate s g).comps = s.comps ∧
    (extractBoard g = none ↔ g.board_state = none ∧ g.field_state = none) := by
  refine ⟨?_, ?_, ?_⟩
  · unfold appHandleGameUpdate
    rw [h]
  · unfold appHandleGameUpdate
    rw [h]
  · unfold extractBoard
    cases g.board_state with
    | some b => simp
    | none =>
      cases g.field_state with
      | some fs =>
        cases fs with
        | mk gr => cases gr <;> simp
      | none => simp

/-- Witness for C5 at a concrete snapshot with no board field. -/
theorem malformedSnapshot_degrade_witness :
    extractBoard snapNoBoard = none ∧
    (appHandleGameUpdate appState0 snapNoBoard).comps = appState0.comps ∧
    (appHandleGameUpdate appState0 snapNoBoard).boardErrorLogCount = 1 :=
  ⟨rfl, (malformedSnapshot_degrade appState0 snapNoBoard rfl).2.1, by decide⟩

/-- C10. On every snapshot application — the malformed case included —
the Reconciler first saves the previous snapshot and unconditionally
overwrites `state.gameState` with the incoming one, before the
board-field check; so after rejecting a malformed snapshot the stored
snapshot holds the malformed data while every presentation component
retains its previous state. -/
theorem snapshotOverwrite_frame (s : AppState) (g : Snapshot) :
    (appHandleGameUpdate s g).gameState = some g ∧
    (appHandleGameUpdate s g).previousGameState = s.gameState ∧
    (extractBoard g = none → (appHandleGameUpdate s g).comps = s.comps) := by
  cases hbs : extractBoard g with
  | none =>
    refine ⟨?_, ?_, fun _ => ?_⟩ <;> simp only [appHandleGameUpdate, hbs]
  | some bd =>
    refine ⟨?_, ?_, ?_⟩
    · simp only [appHandleGameUpdate, hbs]
      split <;> rfl
    · simp only [appHandleGameUpdate, hbs]
      split <;> rfl
    · intro hcontra
      exact absurd hcontra (by simp)

/-- Witness for C10 at the concrete malformed snapshot: the stored
snapshot now holds the malformed data, the components are untouched. -/
theorem snapshotOverwrite_frame_witness :
    (appHandleGameUpdate appState0 snapNoBoard).gameState = some snapNoBoard ∧
    (appHandleGameUpdate appState0 snapNoBoard).previousGameState =
      appState0.gameState ∧
    (appHandleGameUpdate appState0 snapNoBoard).comps = appState0.comps :=
  ⟨(snapshotOverwrite_frame appState0 snapNoBoard).1,
   (snapshotOverwrite_frame appState0 snapNoBoard).2.1,
   (snapshotOverwrite_frame appState0 snapNoBoard).2.2 rfl⟩

lemma hgu_join (s : AppState) (g : Snapshot) :
    (appHandleGameUpdate s g).joinNotifCount = s.joinNotifCount := by
  cases hbs : extractBoard g with
  | none => simp only [appHandleGameUpdate, hbs]
  | some bd =>
    simp only [appHandleGameUpdate, hbs]
    split <;> rfl

lemma hgu_shown (s : AppState) (g : Snapshot) :
    (appHandleGameUpdate s g).playerJoinedNotificationShown =
      s.playerJoinedNotificationShown := by
  cases hbs : extractBoard g with
  | none => simp only [appHandleGameUpdate, hbs]
  | some bd =>
    simp only [appHandleGameUpdate, hbs]
    split <;> rfl

lemma hgu_first (s : AppState) (g : Snapshot) :
    (appHandleGameUpdate s g).isFirstPlayer = s.isFirstPlayer := by
  cases hbs : extractBoard g with
  | none => simp only [appHandleGameUpdate, hbs]
  | some bd =>
    simp only [appHandleGameUpdate, hbs]
    split <;> rfl

lemma gfin_join (s : AppState) (g : Snapshot) :
    (appOnGameFinished s g).joinNotifCount = s.joinNotifCount := rfl

lemma gfin_shown (s : AppState) (g : Snapshot) :
    (appOnGameFinished s g).playerJoinedNotificationShown =
      s.playerJoinedNotificationShown := rfl

lemma gfin_first (s : AppState) (g : Snapshot) :
    (appOnGameFinished s g).isFirstPlayer = s.isFirstPlayer := rfl

lemma pj_first (s : AppState) (n : Snapshot) :
    (appOnPlayerJoined s n).isFirstPlayer = s.isFirstPlayer := by
  unfold appOnPlayerJoined
  split <;> rw [hgu_first]

lemma pj_count (s : AppState) (n : Snapshot) :
    (appOnPlayerJoined s n).joinNotifCount =
      (if s.playerJoinedNotificationShown = false ∧ s.isFirstPlayer = true ∧
          jsTruthyStrOpt n.player2_id = true
       then s.joinNotifCount + 1 else s.joinNotifCount) := by
  unfold appOnPlayerJoined
  split
  next hc => rw [hgu_join]
  next hc => rw [hgu_join]

lemma pj_shown (s : AppState) (n : Snapshot) :
    (appOnPlayerJoined s n).playerJoinedNotificationShown =
      (if s.playerJoinedNotificationShown = false ∧ s.isFirstPlayer = true ∧
          jsTruthyStrOpt n.player2_id = true
       then true else s.playerJoinedNotificationShown) := by
  unfold appOnPlayerJoined
  split
  next hc => rw [hgu_shown]
  next hc => rw [hgu_shown]

lemma foldl_stats_no_pj (s : AppState) (L : List CbEvt)
    (h : ∀ e ∈ L, ∀ n, e ≠ CbEvt.playerJoined n) :
    (L.foldl appStep s).joinNotifCount = s.joinNotifCount ∧
    (L.foldl appStep s).playerJoinedNotificationShown =
      s.playerJoinedNotificationShown ∧
    (L.foldl appStep s).isFirstPlayer = s.isFirstPlayer := by
  induction L generalizing s with
  | nil => exact ⟨rfl, rfl, rfl⟩
  | cons e rest ih =>
    have he := h e (List.mem_cons_self e rest)
    have hstep : (appStep s e).joinNotifCount = s.joinNotifCount ∧
        (appStep s e).playerJoinedNotificationShown =
          s.playerJoinedNotificationShown ∧
        (appStep s e).isFirstPlayer = s.isFirstPlayer := by
      cases e with
      | gameUpdate n => exact ⟨hgu_join s n, hgu_shown s n, hgu_first s n⟩
      | playerJoined n => exact absurd rfl (he n)
      | cellRevealed n => exact ⟨hgu_join s n, hgu_shown s n, hgu_first s n⟩
      | gameFinished n => exact ⟨rfl, rfl, rfl⟩
      | roomDeleted => exact ⟨rfl, rfl, rfl⟩
    have hrest := ih (appStep s e) (fun x hx n => h x (List.mem_cons_of_mem e hx) n)
    rw [List.foldl_cons]
    exact ⟨hrest.1.trans hstep.1, hrest.2.1.trans hstep.2.1,
      hrest.2.2.trans hstep.2.2⟩

lemma processPayload_stats (s : AppState) (p : Payload) :
    ((processPayload s p).joinNotifCount =
      (if p.eventType = EventType.UPDATE ∧
          jsTruthyStrOpt p.oldRec.player2_id = false ∧
          jsTruthyStrOpt p.newRec.player2_id = true ∧
          s.playerJoinedNotificationShown = false ∧ s.isFirstPlayer = true
       then s.joinNotifCount + 1 else s.joinNotifCount)) ∧
    ((processPayload s p).playerJoinedNotificationShown =
      (if p.eventType = EventType.UPDATE ∧
          jsTruthyStrOpt p.oldRec.player2_id = false ∧
          jsTruthyStrOpt p.newRec.player2_id = true ∧
          s.playerJoinedNotificationShown = false ∧ s.isFirstPlayer = true
       then true else s.playerJoinedNotificationShown)) ∧
    ((processPayload s p).isFirstPlayer = s.isFirstPlayer) := by
  rcases p with ⟨et, newR, oldR⟩
  cases et with
  | INSERT =>
    refine ⟨?_, ?_, ?_⟩
    · show (appHandleGameUpdate s newR).joinNotifCount = _
      rw [hgu_join, if_neg (by simp)]
    · show (appHandleGameUpdate s newR).playerJoinedNotificationShown = _
      rw [hgu_shown, if_neg (by simp)]
    · show (appHandleGameUpdate s newR).isFirstPlayer = _
      rw [hgu_first]
  | DELETE =>
    refine ⟨?_, ?_, ?_⟩
    · show (appHandleGameUpdate s newR).joinNotifCount = _
      rw [hgu_join, if_neg (by simp)]
    · show (appHandleGameUpdate s newR).playerJoinedNotificationShown = _
      rw [hgu_shown, if_neg (by simp)]
    · show (appHandleGameUpdate s newR).isFirstPlayer = _
      rw [hgu_first]
  | UPDATE =>
    have hnopj : ∀ e ∈
        ((if oldR.board_state ≠ newR.board_state then
            [CbEvt.cellRevealed newR] else []) ++
         (if oldR.status = some "active" ∧ newR.status = some "finished" then
            [CbEvt.gameFinished newR] else [])),
        ∀ n, e ≠ CbEvt.playerJoined n := by
      intro e he n
      rcases List.mem_append.mp he with hm | hm <;> (split at hm <;> simp_all)
    by_cases h1 : jsTruthyStrOpt oldR.player2_id = false ∧
        jsTruthyStrOpt newR.player2_id = true
    · have e1 : processPayload s ⟨EventType.UPDATE, newR, oldR⟩ =
          List.foldl appStep
            (appOnPlayerJoined (appHandleGameUpdate s newR) newR)
            ((if oldR.board_state ≠ newR.board_state then
                [CbEvt.cellRevealed newR] else []) ++
             (if oldR.status = some "active" ∧ newR.status = some "finished" then
                [CbEvt.gameFinished newR] else [])) := by
        show List.foldl appStep s
            (CbEvt.gameUpdate newR ::
              (((if jsTruthyStrOpt oldR.player2_id = false ∧
                    jsTruthyStrOpt newR.player2_id = true then
                  [CbEvt.playerJoined newR] else []) ++
                (if oldR.board_state ≠ newR.board_state then
                  [CbEvt.cellRevealed newR] else []) ++
                (if oldR.status = some "active" ∧ newR.status = some "finished" then
                  [CbEvt.gameFinished newR] else [])) ++ [])) = _
        rw [List.append_nil, if_pos h1, List.singleton_append, List.cons_append,
          List.foldl_cons, List.foldl_cons]
        rfl
      obtain ⟨hc, hsh, hfi⟩ := foldl_stats_no_pj
        (appOnPlayerJoined (appHandleGameUpdate s newR) newR) _ hnopj
      refine ⟨?_, ?_, ?_⟩
      · rw [e1, hc, pj_count, hgu_join, hgu_shown, hgu_first]
        simp [h1.1, h1.2]
      · rw [e1, hsh, pj_shown, hgu_shown, hgu_first]
        simp [h1.1, h1.2]
      · rw [e1, hfi, pj_first, hgu_first]
    · have e2 : processPayload s ⟨EventType.UPDATE, newR, oldR⟩ =
          List.foldl appStep (appHandleGameUpdate s newR)
            ((if oldR.board_state ≠ newR.board_state then
                [CbEvt.cellRevealed newR] else []) ++
             (if oldR.status = some "active" ∧ newR.status = some "finished" then
                [CbEvt.gameFinished newR] else [])) := by
        show List.foldl appStep s
            (CbEvt.gameUpdate newR ::
              (((if jsTruthyStrOpt oldR.player2_id = false ∧
                    jsTruthyStrOpt newR.player2_id = true then
                  [CbEvt.playerJoined newR] else []) ++
                (if oldR.board_state ≠ newR.board_state then
                  [CbEvt.cellRevealed newR] else []) ++
                (if oldR.status = some "active" ∧ newR.status = some "finished" then
                  [CbEvt.gameFinished newR] else [])) ++ [])) = _
        rw [List.append_nil, if_neg h1, List.nil_append, List.foldl_cons]
        rfl
      obtain ⟨hc, hsh, hfi⟩ := foldl_stats_no_pj
        (appHandleGameUpdate s newR) _ hnopj
      refine ⟨?_, ?_, ?_⟩
      · rw [e2, hc, hgu_join, if_neg (fun hh => h1 ⟨hh.2.1, hh.2.2.1⟩)]
      · rw [e2, hsh, hgu_shown, if_neg (fun hh => h1 ⟨hh.2.1, hh.2.2.1⟩)]
      · rw [e2, hfi, hgu_first]

/-- C1. The "opponent joined" notification is one-shot: processing the
same raw update twice in a row shows the notification at most once in
total, and whenever a processed update shows it, the local session had
not yet shown it for this room session, is the room's first player, and
the update is one whose new record has a (truthy) second-player identity
where the old record had none. -/
theorem opponentJoined_oneShot (s : AppState) (p : Payload) :
    (processPayload (processPayload s p) p).joinNotifCount ≤
      s.joinNotifCount + 1 ∧
    (s.joinNotifCount < (processPayload s p).joinNotifCount →
      s.playerJoinedNotificationShown = false ∧ s.isFirstPlayer = true ∧
      p.eventType = EventType.UPDATE ∧
      jsTruthyStrOpt p.oldRec.player2_id = false ∧
      jsTruthyStrOpt p.newRec.player2_id = true) := by
  obtain ⟨hc1, hsh1, hfi1⟩ := processPayload_stats s p
  obtain ⟨hc2, _, _⟩ := processPayload_stats (processPayload s p) p
  constructor
  · rw [hc2, hsh1, hfi1, hc1]
    by_cases hfull : p.eventType = EventType.UPDATE ∧
        jsTruthyStrOpt p.oldRec.player2_id = false ∧
        jsTruthyStrOpt p.newRec.player2_id = true ∧
        s.playerJoinedNotificationShown = false ∧ s.isFirstPlayer = true
    · rw [if_pos hfull, if_pos hfull]
      rw [if_neg (show ¬(p.eventType = EventType.UPDATE ∧
          jsTruthyStrOpt p.oldRec.player2_id = false ∧
          jsTruthyStrOpt p.newRec.player2_id = true ∧
          (true : Bool) = false ∧ s.isFirstPlayer = true) from
            fun hh => absurd hh.2.2.2.1 (by simp))]
    · rw [if_neg hfull, if_neg hfull, if_neg hfull]
      exact Nat.le_succ _
  · intro hlt
    rw [hc1] at hlt
    by_cases hfull : p.eventType = EventType.UPDATE ∧
        jsTruthyStrOpt p.oldRec.player2_id = false ∧
        jsTruthyStrOpt p.newRec.player2_id = true ∧
        s.playerJoinedNotificationShown = false ∧ s.isFirstPlayer = true
    · exact ⟨hfull.2.2.2.1, hfull.2.2.2.2, hfull.1, hfull.2.1, hfull.2.2.1⟩
    · rw [if_neg hfull] at hlt
      exact absurd hlt (lt_irrefl _)

/-- Witness for C1: for the first player with the notification not yet
shown, the duplicate join update fires the notification exactly once over
the two deliveries. -/
theorem opponentJoined_oneShot_witness :
    (processPayload (processPayload appState0 payloadJoin)
        payloadJoin).joinNotifCount ≤ appState0.joinNotifCount + 1 ∧
    (processPayload appState0 payloadJoin).joinNotifCount = 1 ∧
    (processPayload (processPayload appState0 payloadJoin)
        payloadJoin).joinNotifCount = 1 ∧
    (appState0.playerJoinedNotificationShown = false ∧
      appState0.isFirstPlayer = true ∧
      payloadJoin.eventType = EventType.UPDATE ∧
      jsTruthyStrOpt payloadJoin.oldRec.player2_id = false ∧
      jsTruthyStrOpt payloadJoin.newRec.player2_id = true) :=
  ⟨(opponentJoined_oneShot appState0 payloadJoin).1, by decide, by decide,
   (opponentJoined_oneShot appState0 payloadJoin).2 (by decide)⟩

/-- C2 counterexample: on the concrete join update the Subscription
Bridge emits the generic `GameUpdate` BEFORE the specialized
`PlayerJoined`, not after it as the claimed order (join → cell-reveal →
finish → generic) requires. -/
theorem bridgeOrder_counterexample :
    bridgeCallbacks payloadJoin ≠ specOrderedEmits payloadJoin ∧
    bridgeCallbacks payloadJoin =
      [CbEvt.gameUpdate snapActive, CbEvt.playerJoined snapActive] ∧
    specOrderedEmits payloadJoin =
      [CbEvt.playerJoined snapActive, CbEvt.gameUpdate snapActive] := by
  refine ⟨?_, ?_, ?_⟩ <;> decide

/-- C2 (amended). For every UPDATE notification the bridge emits the
generic `GameUpdate` FIRST, followed by the applicable specialized
events in the fixed order join → cell-reveal → finish, each fired exactly
under its classification condition (second player absent → present,
board content changed, status active → finished). -/
theorem bridgeEmits_genericFirst (p : Payload)
    (h : p.eventType = EventType.UPDATE) :
    bridgeCallbacks p =
      CbEvt.gameUpdate p.newRec ::
        ((if jsTruthyStrOpt p.oldRec.player2_id = false ∧
             jsTruthyStrOpt p.newRec.player2_id = true then
           [CbEvt.playerJoined p.newRec] else []) ++
         (if p.oldRec.board_state ≠ p.newRec.board_state then
           [CbEvt.cellRevealed p.newRec] else []) ++
         (if p.oldRec.status = some "active" ∧
             p.newRec.status = some "finished" then
           [CbEvt.gameFinished p.newRec] else [])) := by
  simp [bridgeCallbacks, h]

/-- Witness for C2's amended theorem at the concrete join update. -/
theorem bridgeEmits_genericFirst_witness :
    bridgeCallbacks payloadJoin =
      [CbEvt.gameUpdate snapActive, CbEvt.playerJoined snapActive] :=
  (bridgeEmits_genericFirst payloadJoin rfl).trans (by decide)

lemma createFlow_step_inv (s : CreateFlowState) (e : CreateFlowEvt)
    (h : s.isCreatingGame = true → 1 ≤ s.pendingTimeouts) :
    (createFlowStep s e).isCreatingGame = true →
      1 ≤ (createFlowStep s e).pendingTimeouts := by
  cases e with
  | invoke =>
    simp only [createFlowStep]
    split
    · exact h
    · intro _
      show 1 ≤ s.pendingTimeouts + 1
      omega
  | timeoutFire =>
    intro hh
    exact absurd hh (by simp [createFlowStep])
  | completeError =>
    intro hh
    exact absurd hh (by simp [createFlowStep])
  | completeSuccess => exact h

lemma createFlow_run_inv (s : CreateFlowState) (es : List CreateFlowEvt)
    (h : s.isCreatingGame = true → 1 ≤ s.pendingTimeouts) :
    (createFlowRun s es).isCreatingGame = true →
      1 ≤ (createFlowRun s es).pendingTimeouts := by
  induction es generalizing s with
  | nil => exact h
  | cons e rest ih =>
    show (createFlowRun (createFlowStep s e) rest).isCreatingGame = true → _
    exact ih (createFlowStep s e) (createFlow_step_inv s e h)

/-- C6 counterexample to the claim as stated: after an invoke followed by
the successful completion of the request (timeout not yet fired), the
in-flight flag is still set — successful completion does not clear it,
contradicting "cleared on completion/error or after the timeout,
whichever happens first". -/
theorem createFlag_success_no_clear :
    (createFlowRun createFlowInit
        [CreateFlowEvt.invoke, CreateFlowEvt.completeSuccess]).isCreatingGame =
      true ∧
    (createFlowRun createFlowInit
        [CreateFlowEvt.invoke, CreateFlowEvt.completeSuccess]).createsIssued =
      1 := by
  constructor <;> rfl

/-- C6 (amended). A create request sets the in-flight flag and a second
invoke while it is set changes nothing and issues no create; the flag is
cleared by the error path and by the 2000 ms timeout (success does not
clear it early); and since every create-issuing invoke schedules a
timeout, once all scheduled timeouts have fired (as the runtime
guarantees they do) the flag is down — the UI is never permanently
locked. -/
theorem createFlag_guard (s : CreateFlowState) (es : List CreateFlowEvt) :
    (s.isCreatingGame = true → createFlowStep s CreateFlowEvt.invoke = s) ∧
    ((createFlowStep s CreateFlowEvt.timeoutFire).isCreatingGame = false) ∧
    ((createFlowStep s CreateFlowEvt.completeError).isCreatingGame = false) ∧
    ((s.isCreatingGame = true → 1 ≤ s.pendingTimeouts) →
      (createFlowRun s es).pendingTimeouts = 0 →
      (createFlowRun s es).isCreatingGame = false) := by
  refine ⟨?_, rfl, rfl, ?_⟩
  · intro h
    simp [createFlowStep, h]
  · intro hinv hp
    cases hflag : (createFlowRun s es).isCreatingGame with
    | false => rfl
    | true =>
      have := createFlow_run_inv s es hinv hflag
      omega

/-- Witness for C6's amended theorem: a full invoke/success/timeout run
ends unlocked, and a second invoke while in flight is a no-op. -/
theorem createFlag_guard_witness :
    (createFlowRun createFlowInit
        [CreateFlowEvt.invoke, CreateFlowEvt.completeSuccess,
         CreateFlowEvt.timeoutFire]).isCreatingGame = false ∧
    createFlowStep
        (createFlowRun createFlowInit [CreateFlowEvt.invoke])
        CreateFlowEvt.invoke =
      createFlowRun createFlowInit [CreateFlowEvt.invoke] :=
  ⟨(createFlag_guard createFlowInit
      [CreateFlowEvt.invoke, CreateFlowEvt.completeSuccess,
       CreateFlowEvt.timeoutFire]).2.2.2 (by decide) (by decide),
   (createFlag_guard (createFlowRun createFlowInit [CreateFlowEvt.invoke])
      []).1 (by decide)⟩

/-- C9. The missing `await` on `unsubscribeFromRoom` inside
`subscribeToRoom` breaks the one-channel-per-room bookkeeping: after
subscribe, re-subscribe, and the pending unsubscribe continuation
running, the channels and handlers maps are empty while the re-created
channel (id 2) is still live and delivering events; a further subscribe
then finds the room untracked, skips the unsubscribe, and leaves TWO
live channels for the same room. -/
theorem realtimeResubscribe_bug :
    (mgrRun mgrInit
        [MgrOp.subscribe "r", MgrOp.subscribe "r", MgrOp.drainTask]).channels =
      [] ∧
    (mgrRun mgrInit
        [MgrOp.subscribe "r", MgrOp.subscribe "r", MgrOp.drainTask]).handlers =
      [] ∧
    (mgrRun mgrInit
        [MgrOp.subscribe "r", MgrOp.subscribe "r", MgrOp.drainTask]).live =
      [("r", 2)] ∧
    (mgrRun mgrInit
        [MgrOp.subscribe "r", MgrOp.subscribe "r", MgrOp.drainTask,
         MgrOp.subscribe "r"]).live = [("r", 2), ("r", 3)] := by
  refine ⟨?_, ?_, ?_, ?_⟩ <;> rfl
